import Mathlib

/-!
Verification model of the Rointe Home Assistant integration
(`src/custom_components/rointe/climate.py`).

The climate entity `RointeHeater` is embedded shallowly: its mutable
attributes become a `HeaterState` record, the update callback
`_handle_update` and the three command coroutines become pure state
transformers.  A command's interaction with the device channel is made
explicit: each command takes a `sendOk` flag telling whether the
`ws.send` call succeeds or raises, and returns the resulting state
together with the list of payloads handed to the channel, the number of
state publications and the control-flow outcome.
-/

namespace Rointe

/-- ASCII lowercase of one character, as Python's `str.lower` acts on the
characters occurring in this integration. -/
def lowerChar (c : Char) : Char :=
  if 'A' ≤ c ∧ c ≤ 'Z' then Char.ofNat (c.toNat + 32) else c

/-- Lowercase a string character by character. -/
def lowerStr (s : String) : String := String.mk (s.data.map lowerChar)

/-- Boolean substring test on character lists, modelling Python's
`needle in hay` on strings. -/
def containsSub : List Char → List Char → Bool
  | ns, [] => ns.isEmpty
  | ns, c :: rest => ns.isPrefixOf (c :: rest) || containsSub ns rest

/-- `strContains needle hay` holds when `needle` occurs as a contiguous
substring of `hay`. -/
def strContains (needle hay : String) : Bool := containsSub needle.data hay.data

/-- A Python value as it can appear in an update payload field.  Numbers
are modelled as rationals; Python booleans are kept separate because
`isinstance(b, int)` is true for them. -/
inductive PyVal where
  | num (q : ℚ)
  | boolean (b : Bool)
  | string (s : String)
  | dict
  | noneVal
  | other
deriving DecidableEq

/-- Python's `isinstance(v, (int, float))`: true for numbers and for
booleans, which are a subclass of `int`. -/
def PyVal.isNumeric : PyVal → Bool
  | .num _ => true
  | .boolean _ => true
  | _ => false

/-- Python's `float(v)` on a value passing the `isinstance` check. -/
def PyVal.toNum : PyVal → ℚ
  | .num q => q
  | .boolean b => if b then 1 else 0
  | _ => 0

/-- `HVACMode.OFF` of the host framework. -/
def HVACMode_OFF : String := "off"
/-- `HVACMode.HEAT` of the host framework. -/
def HVACMode_HEAT : String := "heat"
/-- `HVACAction.OFF` of the host framework. -/
def HVACAction_OFF : String := "off"
/-- `HVACAction.HEATING` of the host framework. -/
def HVACAction_HEATING : String := "heating"
/-- The `PRESET_ECO` constant of the host framework. -/
def PRESET_ECO : String := "eco"
/-- The `PRESET_COMFORT` constant of the host framework. -/
def PRESET_COMFORT : String := "comfort"

/-- `HVAC_MODES` from `climate.py`: the two supported modes. -/
def HVAC_MODES : List String := [HVACMode_OFF, HVACMode_HEAT]

/-- `PRESET_MODES` from `climate.py`. -/
def PRESET_MODES : List String := [PRESET_ECO, PRESET_COMFORT]

/-- `MIN_TEMP` from `climate.py`. -/
def MIN_TEMP : ℚ := 5
/-- `MAX_TEMP` from `climate.py`. -/
def MAX_TEMP : ℚ := 35

/-- `self._attr_min_temp`, the lower bound used by `async_set_temperature`
through the `min_temp` property. -/
def attr_min_temp : ℚ := 7
/-- `self._attr_max_temp`, the upper bound used by `async_set_temperature`
through the `max_temp` property. -/
def attr_max_temp : ℚ := 30

/-- The mutable attributes of a `RointeHeater` entity that the update
callback and the command coroutines read or write. -/
structure HeaterState where
  attr_hvac_mode : String
  attr_preset_mode : Option String
  attr_hvac_action : String
  attr_current_temperature : ℚ
  attr_target_temperature : ℚ
  current_temp : ℚ
  target_temp : ℚ
  attr_available : Bool
  available : Bool
  device_status : PyVal
  online : PyVal
  last_seen : PyVal
deriving DecidableEq

/-- The state written by `RointeHeater.__init__`.  The three arguments are
the values taken from the device-info dictionary for `deviceStatus`
(default an empty dict), `online` (default true) and `lastSeen` (default
none). -/
def initState (ds onl ls : PyVal) : HeaterState :=
  { attr_hvac_mode := HVACMode_OFF
    attr_preset_mode := some PRESET_ECO
    attr_hvac_action := HVACAction_OFF
    attr_current_temperature := 20
    attr_target_temperature := 21
    current_temp := 20
    target_temp := 21
    attr_available := true
    available := true
    device_status := ds
    online := onl
    last_seen := ls }

/-- The initial state of an entity constructed with an empty device-info
dictionary. -/
def initStateDefault : HeaterState :=
  initState PyVal.dict (PyVal.boolean true) PyVal.noneVal

/-- An incoming update mapping, one optional field per key that
`_handle_update` reads. -/
structure UpdatePayload where
  temp : Option PyVal := none
  um_max_temp : Option PyVal := none
  status : Option PyVal := none
  deviceStatus : Option PyVal := none
  online : Option PyVal := none
  lastSeen : Option PyVal := none
deriving DecidableEq

/-- First block of `_handle_update`: `deviceStatus`, `online` and
`lastSeen` are copied through when present and keep their prior value
otherwise. -/
def upd_passthrough (st : UpdatePayload) (s : HeaterState) : HeaterState :=
  { s with
    device_status := st.deviceStatus.getD s.device_status
    online := st.online.getD s.online
    last_seen := st.lastSeen.getD s.last_seen }

/-- Second block of `_handle_update`: the `temp` key updates the current
temperature when it is numeric and within the MIN_TEMP..MAX_TEMP range. -/
def upd_temp (st : UpdatePayload) (s : HeaterState) : HeaterState :=
  match st.temp with
  | some v =>
    if v.isNumeric then
      let t := v.toNum
      if MIN_TEMP ≤ t ∧ t ≤ MAX_TEMP then
        { s with current_temp := t, attr_current_temperature := t }
      else s
    else s
  | none => s

/-- Third block of `_handle_update`: the `um_max_temp` key updates the
target temperature under the same check. -/
def upd_target (st : UpdatePayload) (s : HeaterState) : HeaterState :=
  match st.um_max_temp with
  | some v =>
    if v.isNumeric then
      let t := v.toNum
      if MIN_TEMP ≤ t ∧ t ≤ MAX_TEMP then
        { s with target_temp := t, attr_target_temperature := t }
      else s
    else s
  | none => s

/-- Fourth block of `_handle_update`: a string `status` key, lowered,
drives mode, preset and action; any unrecognized string is a no-op. -/
def upd_status (st : UpdatePayload) (s : HeaterState) : HeaterState :=
  match st.status with
  | some (PyVal.string raw) =>
    let status := lowerStr raw
    if status = "comfort" then
      { s with
        attr_hvac_mode := HVACMode_HEAT
        attr_preset_mode := some PRESET_COMFORT
        attr_hvac_action := HVACAction_HEATING }
    else if status = "eco" then
      { s with
        attr_hvac_mode := HVACMode_HEAT
        attr_preset_mode := some PRESET_ECO
        attr_hvac_action := HVACAction_HEATING }
    else if status = "ice" then
      { s with
        attr_hvac_mode := HVACMode_OFF
        attr_preset_mode := none
        attr_hvac_action := HVACAction_OFF }
    else s
  | _ => s

/-- `RointeHeater._handle_update`: the four blocks in source order,
followed by the unconditional `self._available = True`.  Nothing in the
modelled body can raise, so the surrounding try block is the identity. -/
def handle_update (st : UpdatePayload) (s : HeaterState) : HeaterState :=
  { upd_status st (upd_target st (upd_temp st (upd_passthrough st s))) with
    available := true }

/-- A payload handed to `ws.send`: the keys `status`, `power` and
`um_max_temp`, each optional.  A missing field is a key absent from the
dictionary, so equality of `WirePayload`s is equality of the exact
dictionaries sent. -/
structure WirePayload where
  status : Option String := none
  power : Option Nat := none
  um_max_temp : Option ℚ := none
deriving DecidableEq

/-- How a command coroutine returns to its caller. -/
inductive Outcome where
  | ok
  | rointeError
  | transportError
deriving DecidableEq

/-- Result of running one command coroutine: the entity state afterwards,
the payloads passed to `ws.send` in order, the number of state
publications (`async_write_ha_state` or `schedule_update_ha_state`), and
the outcome. -/
structure CmdResult where
  state : HeaterState
  sent : List WirePayload
  published : Nat
  outcome : Outcome
deriving DecidableEq

/-- `RointeHeater.async_set_hvac_mode`.  `sendOk` tells whether the
`ws.send` call succeeds; when it raises, the except block marks the
legacy availability flag false, publishes state and raises
`RointeDeviceError`. -/
def set_hvac_mode (sendOk : Bool) (hvac_mode : String) (s : HeaterState) :
    CmdResult :=
  if hvac_mode ∉ HVAC_MODES then
    { state := s, sent := [], published := 0, outcome := .ok }
  else
    let updates : WirePayload :=
      if hvac_mode = HVACMode_HEAT then
        { status := some "comfort", power := some 2 }
      else if hvac_mode = HVACMode_OFF then
        { status := some "eco", power := some 1 }
      else {}
    if sendOk then
      let s1 := { s with attr_hvac_mode := hvac_mode }
      let s2 :=
        if hvac_mode = HVACMode_HEAT then
          { s1 with
            attr_preset_mode := some PRESET_COMFORT
            attr_hvac_action := HVACAction_HEATING }
        else
          { s1 with
            attr_preset_mode := none
            attr_hvac_action := HVACAction_OFF }
      { state := s2, sent := [updates], published := 1, outcome := .ok }
    else
      { state := { s with available := false }, sent := [updates],
        published := 1, outcome := .rointeError }

/-- `RointeHeater.async_set_preset_mode`.  On a send failure the except
block raises `RointeDeviceError` without touching any state field. -/
def set_preset_mode (sendOk : Bool) (preset_mode : String) (s : HeaterState) :
    CmdResult :=
  let updates : WirePayload :=
    if preset_mode = PRESET_COMFORT then
      { status := some "comfort", power := some 2 }
    else if preset_mode = PRESET_ECO then
      { status := some "eco", power := some 1 }
    else {}
  if sendOk then
    let s1 := { s with attr_preset_mode := some preset_mode }
    let s2 :=
      if preset_mode ∈ [PRESET_COMFORT, PRESET_ECO] then
        { s1 with
          attr_hvac_mode := HVACMode_HEAT
          attr_hvac_action := HVACAction_HEATING }
      else
        { s1 with
          attr_hvac_mode := HVACMode_OFF
          attr_hvac_action := HVACAction_OFF }
    { state := s2, sent := [updates], published := 1, outcome := .ok }
  else
    { state := s, sent := [updates], published := 0, outcome := .rointeError }

/-- `RointeHeater.async_set_temperature`.  The target-temperature fields
are assigned before the `ws.send` call; the coroutine has no try block,
so a send failure propagates the transport error after the assignment. -/
def set_temperature (sendOk : Bool) (temperature : Option ℚ)
    (s : HeaterState) : CmdResult :=
  match temperature with
  | none => { state := s, sent := [], published := 0, outcome := .ok }
  | some t =>
    if ¬ (attr_min_temp ≤ t ∧ t ≤ attr_max_temp) then
      { state := s, sent := [], published := 0, outcome := .ok }
    else
      let s1 := { s with target_temp := t, attr_target_temperature := t }
      if sendOk then
        { state := s1, sent := [{ um_max_temp := some t }], published := 1,
          outcome := .ok }
      else
        { state := s1, sent := [{ um_max_temp := some t }], published := 0,
          outcome := .transportError }

/-- One operation applied to a live entity: a pushed update or one of the
three command coroutines, the commands tagged with whether their
`ws.send` succeeds. -/
inductive Op where
  | update (st : UpdatePayload)
  | setMode (sendOk : Bool) (m : String)
  | setPreset (sendOk : Bool) (p : String)
  | setTemp (sendOk : Bool) (t : Option ℚ)
deriving DecidableEq

/-- The state after one operation. -/
def applyOp : Op → HeaterState → HeaterState
  | .update st, s => handle_update st s
  | .setMode ok m, s => (set_hvac_mode ok m s).state
  | .setPreset ok p, s => (set_preset_mode ok p s).state
  | .setTemp ok t, s => (set_temperature ok t s).state

/-- The state after a sequence of operations. -/
def run (ops : List Op) (s : HeaterState) : HeaterState :=
  ops.foldl (fun s op => applyOp op s) s

/-- The loop of the categorization block in `RointeHeater.__init__`: the
value of the first table entry whose key, lowered, occurs as a substring
of the lowered model string.  The table argument stands for
`DEVICE_MODELS`, modelled from the spec: it is defined in `const.py`,
which is not among the sources; per the spec it is a static mapping of
model-name substrings to category labels, iterated in insertion order. -/
def firstMatch (table : List (String × String)) (m : String) : Option String :=
  match table with
  | [] => none
  | (k, c) :: rest =>
    if strContains (lowerStr k) (lowerStr m) then some c else firstMatch rest m

/-- The categorization block of `RointeHeater.__init__`: the loop runs
only when the model string is truthy, and a falsy category after the
loop falls back to the "radiator" default. -/
def categorize (table : List (String × String)) (model : Option String) :
    String :=
  let c0 : Option String :=
    match model with
    | some m => if m ≠ "" then firstMatch table m else none
    | none => none
  match c0 with
  | some c => if c = "" then "radiator" else c
  | none => "radiator"

/-- The claim's reading of categorization: the value of the first table
entry whose key is a case-insensitive substring of the model string;
"radiator" when no entry matches or the model is missing. -/
def categorySpec (table : List (String × String)) (model : Option String) :
    String :=
  match model with
  | none => "radiator"
  | some m =>
    ((table.find? fun kc =>
        strContains (lowerStr kc.1) (lowerStr m)).map Prod.snd).getD "radiator"

/-- A raw device record as seen by `async_setup_entry`: the dictionary
keys it reads, plus a flag telling whether the `RointeHeater` constructor
raises on this record. -/
structure DeviceRecord where
  id : Option String := none
  name : Option String := none
  zone : Option String := none
  ctorRaises : Bool := false
deriving DecidableEq

/-- A created climate entity, reduced to the construction data that
`async_setup_entry` passes along. -/
structure EntityRec where
  device_id : String
  entity_name : String
deriving DecidableEq

/-- Python truthiness test on `dev.get(key)` for a string key: falsy when
the key is missing or the string is empty. -/
def pyFalsyStr : Option String → Bool
  | none => true
  | some s => s.isEmpty

/-- The `entity_name` built by the setup loop from zone and name, with
their dictionary defaults. -/
def mkEntityName (dev : DeviceRecord) : String :=
  dev.zone.getD "Unknown Zone" ++ " - " ++ dev.name.getD "Unknown Device"

/-- The entity constructed for one device record. -/
def mkEntity (dev : DeviceRecord) : EntityRec :=
  { device_id := dev.id.getD "", entity_name := mkEntityName dev }

/-- The device loop of `async_setup_entry`: a falsy id is logged and
skipped, a constructor exception is caught, logged and skipped, and every
other record yields one entity, in order. -/
def setup_entities : List DeviceRecord → List EntityRec
  | [] => []
  | dev :: rest =>
    if pyFalsyStr dev.id then setup_entities rest
    else if dev.ctorRaises then setup_entities rest
    else mkEntity dev :: setup_entities rest

/-- A record the setup loop accepts: truthy id and a constructor that
does not raise. -/
def validDevice (dev : DeviceRecord) : Bool :=
  !pyFalsyStr dev.id && !dev.ctorRaises

/-! ### Shape lemmas for the update blocks -/

/-- The pass-through block only rewrites the three pass-through fields. -/
lemma upd_passthrough_frame (st : UpdatePayload) (s : HeaterState) :
    (upd_passthrough st s).attr_hvac_mode = s.attr_hvac_mode ∧
    (upd_passthrough st s).attr_preset_mode = s.attr_preset_mode ∧
    (upd_passthrough st s).attr_hvac_action = s.attr_hvac_action ∧
    (upd_passthrough st s).current_temp = s.current_temp ∧
    (upd_passthrough st s).attr_current_temperature = s.attr_current_temperature ∧
    (upd_passthrough st s).target_temp = s.target_temp ∧
    (upd_passthrough st s).attr_target_temperature = s.attr_target_temperature ∧
    (upd_passthrough st s).attr_available = s.attr_available ∧
    (upd_passthrough st s).available = s.available := by
  simp [upd_passthrough]

/-- The current-temperature block either does nothing or writes one value
into both current-temperature fields. -/
lemma upd_temp_cases (st : UpdatePayload) (s : HeaterState) :
    upd_temp st s = s ∨
    ∃ t : ℚ, upd_temp st s =
      { s with current_temp := t, attr_current_temperature := t } := by
  unfold upd_temp
  cases st.temp with
  | none => exact Or.inl rfl
  | some v =>
    dsimp only
    split
    · split
      · exact Or.inr ⟨v.toNum, rfl⟩
      · exact Or.inl rfl
    · exact Or.inl rfl

/-- The target-temperature block either does nothing or writes one value
into both target-temperature fields. -/
lemma upd_target_cases (st : UpdatePayload) (s : HeaterState) :
    upd_target st s = s ∨
    ∃ t : ℚ, upd_target st s =
      { s with target_temp := t, attr_target_temperature := t } := by
  unfold upd_target
  cases st.um_max_temp with
  | none => exact Or.inl rfl
  | some v =>
    dsimp only
    split
    · split
      · exact Or.inr ⟨v.toNum, rfl⟩
      · exact Or.inl rfl
    · exact Or.inl rfl

/-- The status block either does nothing or writes one of the three
recognized mode, preset and action triples. -/
lemma upd_status_cases (st : UpdatePayload) (s : HeaterState) :
    upd_status st s = s ∨
    upd_status st s =
      { s with attr_hvac_mode := HVACMode_HEAT,
               attr_preset_mode := some PRESET_COMFORT,
               attr_hvac_action := HVACAction_HEATING } ∨
    upd_status st s =
      { s with attr_hvac_mode := HVACMode_HEAT,
               attr_preset_mode := some PRESET_ECO,
               attr_hvac_action := HVACAction_HEATING } ∨
    upd_status st s =
      { s with attr_hvac_mode := HVACMode_OFF,
               attr_preset_mode := none,
               attr_hvac_action := HVACAction_OFF } := by
  unfold upd_status
  cases h : st.status with
  | none => exact Or.inl rfl
  | some v =>
    cases v with
    | string raw =>
      dsimp only
      split
      · exact Or.inr (Or.inl rfl)
      · split
        · exact Or.inr (Or.inr (Or.inl rfl))
        · split
          · exact Or.inr (Or.inr (Or.inr rfl))
          · exact Or.inl rfl
    | num q => exact Or.inl rfl
    | boolean b => exact Or.inl rfl
    | dict => exact Or.inl rfl
    | noneVal => exact Or.inl rfl
    | other => exact Or.inl rfl

/-- The status block leaves every field outside the mode, preset and
action triple unchanged. -/
lemma upd_status_frame (st : UpdatePayload) (s : HeaterState) :
    (upd_status st s).current_temp = s.current_temp ∧
    (upd_status st s).attr_current_temperature = s.attr_current_temperature ∧
    (upd_status st s).target_temp = s.target_temp ∧
    (upd_status st s).attr_target_temperature = s.attr_target_temperature ∧
    (upd_status st s).attr_available = s.attr_available ∧
    (upd_status st s).available = s.available := by
  rcases upd_status_cases st s with h | h | h | h <;> rw [h] <;> simp

/-- The current-temperature block leaves the other fields unchanged. -/
lemma upd_temp_frame (st : UpdatePayload) (s : HeaterState) :
    (upd_temp st s).attr_hvac_mode = s.attr_hvac_mode ∧
    (upd_temp st s).attr_preset_mode = s.attr_preset_mode ∧
    (upd_temp st s).attr_hvac_action = s.attr_hvac_action ∧
    (upd_temp st s).target_temp = s.target_temp ∧
    (upd_temp st s).attr_target_temperature = s.attr_target_temperature ∧
    (upd_temp st s).attr_available = s.attr_available ∧
    (upd_temp st s).available = s.available := by
  rcases upd_temp_cases st s with h | ⟨t, h⟩ <;> rw [h] <;> simp

/-- The target-temperature block leaves the other fields unchanged. -/
lemma upd_target_frame (st : UpdatePayload) (s : HeaterState) :
    (upd_target st s).attr_hvac_mode = s.attr_hvac_mode ∧
    (upd_target st s).attr_preset_mode = s.attr_preset_mode ∧
    (upd_target st s).attr_hvac_action = s.attr_hvac_action ∧
    (upd_target st s).current_temp = s.current_temp ∧
    (upd_target st s).attr_current_temperature = s.attr_current_temperature ∧
    (upd_target st s).attr_available = s.attr_available ∧
    (upd_target st s).available = s.available := by
  rcases upd_target_cases st s with h | ⟨t, h⟩ <;> rw [h] <;> simp

/-- When the payload's status field is the string `raw`, the status block
is exactly the lowered-string dispatch of the source. -/
lemma upd_status_of_string (st : UpdatePayload) (s : HeaterState)
    (raw : String) (h : st.status = some (PyVal.string raw)) :
    upd_status st s =
      (if lowerStr raw = "comfort" then
        { s with attr_hvac_mode := HVACMode_HEAT,
                 attr_preset_mode := some PRESET_COMFORT,
                 attr_hvac_action := HVACAction_HEATING }
      else if lowerStr raw = "eco" then
        { s with attr_hvac_mode := HVACMode_HEAT,
                 attr_preset_mode := some PRESET_ECO,
                 attr_hvac_action := HVACAction_HEATING }
      else if lowerStr raw = "ice" then
        { s with attr_hvac_mode := HVACMode_OFF,
                 attr_preset_mode := none,
                 attr_hvac_action := HVACAction_OFF }
      else s) := by
  unfold upd_status
  rw [h]

/-- When the payload's temp field is the value `v`, the
current-temperature block is exactly the numeric range filter of the
source. -/
lemma upd_temp_of_val (st : UpdatePayload) (s : HeaterState) (v : PyVal)
    (h : st.temp = some v) :
    upd_temp st s =
      if v.isNumeric = true ∧ MIN_TEMP ≤ v.toNum ∧ v.toNum ≤ MAX_TEMP then
        { s with current_temp := v.toNum,
                 attr_current_temperature := v.toNum }
      else s := by
  unfold upd_temp
  rw [h]
  dsimp only
  by_cases h1 : v.isNumeric = true
  · by_cases h2 : MIN_TEMP ≤ v.toNum ∧ v.toNum ≤ MAX_TEMP
    · simp [h1, h2]
    · simp [h1, h2]
  · simp [h1]

/-- The mode, preset and action fields of the full update are those of
the status block applied to the intermediate state. -/
lemma handle_update_mpa_eq (st : UpdatePayload) (s : HeaterState) :
    (handle_update st s).attr_hvac_mode =
      (upd_status st (upd_target st (upd_temp st (upd_passthrough st s)))).attr_hvac_mode ∧
    (handle_update st s).attr_preset_mode =
      (upd_status st (upd_target st (upd_temp st (upd_passthrough st s)))).attr_preset_mode ∧
    (handle_update st s).attr_hvac_action =
      (upd_status st (upd_target st (upd_temp st (upd_passthrough st s)))).attr_hvac_action := by
  simp [handle_update]

/-- The current-temperature fields of the full update are those of the
current-temperature block applied after pass-through. -/
lemma handle_update_current_eq (st : UpdatePayload) (s : HeaterState) :
    (handle_update st s).current_temp =
      (upd_temp st (upd_passthrough st s)).current_temp ∧
    (handle_update st s).attr_current_temperature =
      (upd_temp st (upd_passthrough st s)).attr_current_temperature := by
  obtain ⟨-, -, -, g4, g5, -, -⟩ :=
    upd_target_frame st (upd_temp st (upd_passthrough st s))
  obtain ⟨f1, f2, -, -, -, -⟩ :=
    upd_status_frame st (upd_target st (upd_temp st (upd_passthrough st s)))
  constructor
  · show (upd_status st _).current_temp = _
    rw [f1, g4]
  · show (upd_status st _).attr_current_temperature = _
    rw [f2, g5]

/-! ### Claim theorems -/

/-- C1: on an update whose status value is a string, `_handle_update`
dispatches case-insensitively: comfort gives mode HEAT, preset COMFORT,
action HEATING; eco gives mode HEAT, preset ECO, action HEATING; ice
gives mode OFF, cleared preset, action OFF; any other string leaves mode,
preset and action unchanged. -/
theorem handle_update_status_table (s : HeaterState) (st : UpdatePayload)
    (raw : String) (h : st.status = some (PyVal.string raw)) :
    (lowerStr raw = "comfort" →
      (handle_update st s).attr_hvac_mode = HVACMode_HEAT ∧
      (handle_update st s).attr_preset_mode = some PRESET_COMFORT ∧
      (handle_update st s).attr_hvac_action = HVACAction_HEATING) ∧
    (lowerStr raw = "eco" →
      (handle_update st s).attr_hvac_mode = HVACMode_HEAT ∧
      (handle_update st s).attr_preset_mode = some PRESET_ECO ∧
      (handle_update st s).attr_hvac_action = HVACAction_HEATING) ∧
    (lowerStr raw = "ice" →
      (handle_update st s).attr_hvac_mode = HVACMode_OFF ∧
      (handle_update st s).attr_preset_mode = none ∧
      (handle_update st s).attr_hvac_action = HVACAction_OFF) ∧
    (lowerStr raw ≠ "comfort" → lowerStr raw ≠ "eco" → lowerStr raw ≠ "ice" →
      (handle_update st s).attr_hvac_mode = s.attr_hvac_mode ∧
      (handle_update st s).attr_preset_mode = s.attr_preset_mode ∧
      (handle_update st s).attr_hvac_action = s.attr_hvac_action) := by
  obtain ⟨m1, m2, m3⟩ := handle_update_mpa_eq st s
  have hs := upd_status_of_string st
    (upd_target st (upd_temp st (upd_passthrough st s))) raw h
  obtain ⟨p1, p2, p3, -, -, -, -, -, -⟩ := upd_passthrough_frame st s
  obtain ⟨t1, t2, t3, -, -, -, -⟩ := upd_temp_frame st (upd_passthrough st s)
  obtain ⟨g1, g2, g3, -, -, -, -⟩ :=
    upd_target_frame st (upd_temp st (upd_passthrough st s))
  refine ⟨fun hc => ?_, fun hc => ?_, fun hc => ?_, fun h1 h2 h3 => ?_⟩
  · rw [m1, m2, m3, hs]; simp [hc]
  · rw [m1, m2, m3, hs]; simp [hc]
  · rw [m1, m2, m3, hs]; simp [hc]
  · rw [m1, m2, m3, hs]
    simp [h1, h2, h3, g1, g2, g3, t1, t2, t3, p1, p2, p3]

/-- Witness for C1: concrete applications at the mixed-case status
CoMfOrT and at the unrecognized status boost. -/
theorem handle_update_status_table_witness :
    ((handle_update { status := some (PyVal.string "CoMfOrT") }
        initStateDefault).attr_hvac_mode = HVACMode_HEAT ∧
     (handle_update { status := some (PyVal.string "CoMfOrT") }
        initStateDefault).attr_preset_mode = some PRESET_COMFORT ∧
     (handle_update { status := some (PyVal.string "CoMfOrT") }
        initStateDefault).attr_hvac_action = HVACAction_HEATING) ∧
    ((handle_update { status := some (PyVal.string "boost") }
        initStateDefault).attr_hvac_mode = initStateDefault.attr_hvac_mode ∧
     (handle_update { status := some (PyVal.string "boost") }
        initStateDefault).attr_preset_mode = initStateDefault.attr_preset_mode ∧
     (handle_update { status := some (PyVal.string "boost") }
        initStateDefault).attr_hvac_action = initStateDefault.attr_hvac_action) :=
  ⟨(handle_update_status_table initStateDefault
      { status := some (PyVal.string "CoMfOrT") } "CoMfOrT" rfl).1 (by decide),
   (handle_update_status_table initStateDefault
      { status := some (PyVal.string "boost") } "boost" rfl).2.2.2
      (by decide) (by decide) (by decide)⟩

/-- C3: on an update carrying a temp value, `_handle_update` writes the
current temperature exactly when the value is numeric and lies in the
5 to 35 range, and otherwise leaves the prior value untouched. -/
theorem handle_update_temp_range (s : HeaterState) (st : UpdatePayload)
    (v : PyVal) (h : st.temp = some v) :
    ((v.isNumeric = true ∧ MIN_TEMP ≤ v.toNum ∧ v.toNum ≤ MAX_TEMP) →
      (handle_update st s).current_temp = v.toNum ∧
      (handle_update st s).attr_current_temperature = v.toNum) ∧
    (¬ (v.isNumeric = true ∧ MIN_TEMP ≤ v.toNum ∧ v.toNum ≤ MAX_TEMP) →
      (handle_update st s).current_temp = s.current_temp ∧
      (handle_update st s).attr_current_temperature =
        s.attr_current_temperature) := by
  obtain ⟨c1, c2⟩ := handle_update_current_eq st s
  have ht := upd_temp_of_val st (upd_passthrough st s) v h
  obtain ⟨-, -, -, p4, p5, -, -, -, -⟩ := upd_passthrough_frame st s
  constructor
  · intro hc
    rw [c1, c2, ht, if_pos hc]
    exact ⟨rfl, rfl⟩
  · intro hc
    rw [c1, c2, ht, if_neg hc, p4, p5]
    exact ⟨rfl, rfl⟩

/-- Witness for C3: a numeric in-range value 22 is written; the numeric
out-of-range value 50 is dropped, leaving the initial 20. -/
theorem handle_update_temp_range_witness :
    ((handle_update { temp := some (PyVal.num 22) }
        initStateDefault).current_temp = 22 ∧
     (handle_update { temp := some (PyVal.num 22) }
        initStateDefault).attr_current_temperature = 22) ∧
    ((handle_update { temp := some (PyVal.num 50) }
        initStateDefault).current_temp = 20 ∧
     (handle_update { temp := some (PyVal.num 50) }
        initStateDefault).attr_current_temperature = 20) :=
  ⟨(handle_update_temp_range initStateDefault
      { temp := some (PyVal.num 22) } (PyVal.num 22) rfl).1 (by decide),
   (handle_update_temp_range initStateDefault
      { temp := some (PyVal.num 50) } (PyVal.num 50) rfl).2 (by decide)⟩

/-- The mode, preset and action consistency property stated by the spec:
HEAT pairs with one of the two presets, OFF clears the preset and sets
action OFF. -/
def modePresetInv (s : HeaterState) : Prop :=
  (s.attr_hvac_mode = HVACMode_HEAT →
    s.attr_preset_mode = some PRESET_ECO ∨
    s.attr_preset_mode = some PRESET_COMFORT) ∧
  (s.attr_hvac_mode = HVACMode_OFF →
    s.attr_preset_mode = none ∧ s.attr_hvac_action = HVACAction_OFF)

instance (s : HeaterState) : Decidable (modePresetInv s) := by
  unfold modePresetInv
  infer_instance

/-- An operation whose preset argument, when it is a preset command, is
one of the two supported presets. -/
def presetArgValid : Op → Prop
  | .setPreset _ p => p = PRESET_ECO ∨ p = PRESET_COMFORT
  | _ => True

instance (op : Op) : Decidable (presetArgValid op) :=
  match op with
  | .update _ => inferInstanceAs (Decidable True)
  | .setMode _ _ => inferInstanceAs (Decidable True)
  | .setPreset _ p =>
    inferInstanceAs (Decidable (p = PRESET_ECO ∨ p = PRESET_COMFORT))
  | .setTemp _ _ => inferInstanceAs (Decidable True)

/-- The invariant only reads mode, preset and action, so it transfers
along equality of those three fields. -/
lemma inv_of_mpa_eq (a b : HeaterState)
    (h1 : a.attr_hvac_mode = b.attr_hvac_mode)
    (h2 : a.attr_preset_mode = b.attr_preset_mode)
    (h3 : a.attr_hvac_action = b.attr_hvac_action)
    (hb : modePresetInv b) : modePresetInv a := by
  unfold modePresetInv at *
  rw [h1, h2, h3]
  exact hb

/-- `_handle_update` preserves the consistency invariant. -/
lemma handle_update_preserves_inv (st : UpdatePayload) (s : HeaterState)
    (hs : modePresetInv s) : modePresetInv (handle_update st s) := by
  obtain ⟨m1, m2, m3⟩ := handle_update_mpa_eq st s
  obtain ⟨p1, p2, p3, -, -, -, -, -, -⟩ := upd_passthrough_frame st s
  obtain ⟨t1, t2, t3, -, -, -, -⟩ := upd_temp_frame st (upd_passthrough st s)
  obtain ⟨g1, g2, g3, -, -, -, -⟩ :=
    upd_target_frame st (upd_temp st (upd_passthrough st s))
  rcases upd_status_cases st
      (upd_target st (upd_temp st (upd_passthrough st s))) with h | h | h | h
  · refine inv_of_mpa_eq _ s ?_ ?_ ?_ hs
    · rw [m1, h, g1, t1, p1]
    · rw [m2, h, g2, t2, p2]
    · rw [m3, h, g3, t3, p3]
  · constructor
    · intro _
      right
      rw [m2, h]
    · intro hoff
      rw [m1, h] at hoff
      simp [HVACMode_HEAT, HVACMode_OFF] at hoff
  · constructor
    · intro _
      left
      rw [m2, h]
    · intro hoff
      rw [m1, h] at hoff
      simp [HVACMode_HEAT, HVACMode_OFF] at hoff
  · constructor
    · intro hheat
      rw [m1, h] at hheat
      simp [HVACMode_HEAT, HVACMode_OFF] at hheat
    · intro _
      constructor
      · rw [m2, h]
      · rw [m3, h]

/-- `async_set_hvac_mode` preserves the consistency invariant. -/
lemma set_hvac_mode_preserves_inv (ok : Bool) (m : String) (s : HeaterState)
    (hs : modePresetInv s) : modePresetInv (set_hvac_mode ok m s).state := by
  by_cases hm : m ∈ HVAC_MODES
  · have hm2 : m = HVACMode_OFF ∨ m = HVACMode_HEAT := by
      simpa [HVAC_MODES] using hm
    cases ok with
    | false =>
      refine inv_of_mpa_eq _ s ?_ ?_ ?_ hs <;> simp [set_hvac_mode, hm]
    | true =>
      rcases hm2 with rfl | rfl
      · constructor
        · intro hheat
          exfalso
          simp [set_hvac_mode, HVAC_MODES, HVACMode_OFF, HVACMode_HEAT]
            at hheat
        · intro _
          constructor <;>
            simp [set_hvac_mode, HVAC_MODES, HVACMode_OFF, HVACMode_HEAT,
              HVACAction_OFF]
      · constructor
        · intro _
          right
          simp [set_hvac_mode, HVAC_MODES, HVACMode_OFF, HVACMode_HEAT]
        · intro hoff
          exfalso
          simp [set_hvac_mode, HVAC_MODES, HVACMode_OFF, HVACMode_HEAT]
            at hoff
  · refine inv_of_mpa_eq _ s ?_ ?_ ?_ hs <;> simp [set_hvac_mode, hm]

/-- `async_set_preset_mode` with a supported preset argument preserves
the consistency invariant. -/
lemma set_preset_mode_preserves_inv (ok : Bool) (p : String)
    (s : HeaterState) (hp : p = PRESET_ECO ∨ p = PRESET_COMFORT)
    (hs : modePresetInv s) :
    modePresetInv (set_preset_mode ok p s).state := by
  cases ok with
  | false =>
    refine inv_of_mpa_eq _ s ?_ ?_ ?_ hs <;> simp [set_preset_mode]
  | true =>
    rcases hp with rfl | rfl
    · constructor
      · intro _
        left
        simp [set_preset_mode, PRESET_ECO, PRESET_COMFORT]
      · intro hoff
        exfalso
        simp [set_preset_mode, PRESET_ECO, PRESET_COMFORT, HVACMode_HEAT,
          HVACMode_OFF] at hoff
    · constructor
      · intro _
        right
        simp [set_preset_mode, PRESET_ECO, PRESET_COMFORT]
      · intro hoff
        exfalso
        simp [set_preset_mode, PRESET_ECO, PRESET_COMFORT, HVACMode_HEAT,
          HVACMode_OFF] at hoff

/-- `async_set_temperature` never touches mode, preset or action. -/
lemma set_temperature_preserves_inv (ok : Bool) (t : Option ℚ)
    (s : HeaterState) (hs : modePresetInv s) :
    modePresetInv (set_temperature ok t s).state := by
  refine inv_of_mpa_eq _ s ?_ ?_ ?_ hs <;>
    (cases t with
     | none => rfl
     | some q =>
       unfold set_temperature
       dsimp only
       split
       · rfl
       · split <;> rfl)

/-- One operation with a supported preset argument preserves the
consistency invariant. -/
lemma applyOp_preserves_inv (op : Op) (s : HeaterState)
    (hop : presetArgValid op) (hs : modePresetInv s) :
    modePresetInv (applyOp op s) := by
  cases op with
  | update st => exact handle_update_preserves_inv st s hs
  | setMode ok m => exact set_hvac_mode_preserves_inv ok m s hs
  | setPreset ok p => exact set_preset_mode_preserves_inv ok p s hop hs
  | setTemp ok t => exact set_temperature_preserves_inv ok t s hs

/-- C2 counterexample: the invariant fails in reachable states.  The
constructed initial state pairs mode OFF with preset ECO, and a preset
command with the unrecognized preset boost leaves mode OFF with a
non-cleared preset. -/
theorem modePresetInv_violations :
    ¬ modePresetInv initStateDefault ∧
    ¬ modePresetInv (applyOp (Op.setPreset true "boost")
        (applyOp (Op.setMode true HVACMode_OFF) initStateDefault)) := by
  constructor <;> decide

/-- C2 amended: starting from any state satisfying the mode and preset
consistency invariant, every sequence of updates and commands whose
preset-command arguments are ECO or COMFORT keeps the invariant; the
constructed initial state itself and preset commands with unrecognized
presets are the exceptions. -/
theorem modePresetInv_preserved (s : HeaterState) (ops : List Op)
    (hs : modePresetInv s) (hops : ∀ op ∈ ops, presetArgValid op) :
    modePresetInv (run ops s) := by
  induction ops generalizing s with
  | nil => exact hs
  | cons op rest ih =>
    exact ih (applyOp op s)
      (applyOp_preserves_inv op s (hops op (by simp)) hs)
      (fun o ho => hops o (by simp [ho]))

/-- Witness for the amended C2 on a concrete consistent state and a
concrete operation sequence exercising all four operations. -/
theorem modePresetInv_preserved_witness :
    modePresetInv (run
      [Op.setMode true HVACMode_HEAT,
       Op.update { status := some (PyVal.string "ice") },
       Op.setPreset true PRESET_ECO,
       Op.setTemp true (some 22)]
      (applyOp (Op.setMode true HVACMode_OFF) initStateDefault)) :=
  modePresetInv_preserved _ _ (by decide) (by decide)

/-- C4: a successful HEAT command sends exactly one payload with status
comfort and power 2 and leaves mode HEAT, preset COMFORT, action
HEATING; a successful OFF command sends exactly one payload with status
eco and power 1 and leaves mode OFF, cleared preset, action OFF. -/
theorem set_hvac_mode_success_spec (s : HeaterState) :
    set_hvac_mode true HVACMode_HEAT s =
      { state := { s with attr_hvac_mode := HVACMode_HEAT,
                          attr_preset_mode := some PRESET_COMFORT,
                          attr_hvac_action := HVACAction_HEATING },
        sent := [{ status := some "comfort", power := some 2 }],
        published := 1, outcome := Outcome.ok } ∧
    set_hvac_mode true HVACMode_OFF s =
      { state := { s with attr_hvac_mode := HVACMode_OFF,
                          attr_preset_mode := none,
                          attr_hvac_action := HVACAction_OFF },
        sent := [{ status := some "eco", power := some 1 }],
        published := 1, outcome := Outcome.ok } := by
  constructor <;> rfl

/-- C5: a temperature command outside the 7 to 30 bounds returns without
sending, publishing or touching any field; inside the bounds it sends
exactly one payload carrying um_max_temp and writes both
target-temperature fields. -/
theorem set_temperature_range_spec (s : HeaterState) (sendOk : Bool)
    (t : ℚ) :
    (¬ (attr_min_temp ≤ t ∧ t ≤ attr_max_temp) →
      set_temperature sendOk (some t) s =
        { state := s, sent := [], published := 0, outcome := Outcome.ok }) ∧
    ((attr_min_temp ≤ t ∧ t ≤ attr_max_temp) →
      (set_temperature sendOk (some t) s).sent =
        [{ um_max_temp := some t }] ∧
      (set_temperature sendOk (some t) s).state =
        { s with target_temp := t, attr_target_temperature := t }) := by
  constructor
  · intro hc
    unfold set_temperature
    dsimp only
    rw [if_pos hc]
  · intro hc
    unfold set_temperature
    dsimp only
    rw [if_neg (not_not.mpr hc)]
    cases sendOk <;> exact ⟨rfl, rfl⟩

/-- Witness for C5: the out-of-range value 50 is a silent no-op from the
initial state, and the in-range value 22 is sent and written. -/
theorem set_temperature_range_spec_witness :
    set_temperature true (some 50) initStateDefault =
      { state := initStateDefault, sent := [], published := 0,
        outcome := Outcome.ok } ∧
    ((set_temperature true (some 22) initStateDefault).sent =
      [{ um_max_temp := some 22 }] ∧
     (set_temperature true (some 22) initStateDefault).state =
      { initStateDefault with target_temp := 22,
                              attr_target_temperature := 22 }) :=
  ⟨(set_temperature_range_spec initStateDefault true 50).1 (by decide),
   (set_temperature_range_spec initStateDefault true 22).2 (by decide)⟩

/-- C6 counterexample: with a failing channel, a temperature command has
already written the new target temperature at the moment the transport
error surfaces, so the local state is not at its prior value. -/
theorem set_temperature_mutates_before_send :
    (set_temperature false (some 25) initStateDefault).outcome =
      Outcome.transportError ∧
    initStateDefault.target_temp = 21 ∧
    (set_temperature false (some 25) initStateDefault).state.target_temp
      = 25 ∧
    (set_temperature false (some 25)
      initStateDefault).state.attr_target_temperature = 25 := by
  decide

/-- C6 amended: the mode and preset commands send before updating, so on
a send failure mode, preset, action and target temperature still hold
their prior values; the temperature command instead assigns the target
temperature before sending, so on a send failure the new value is
already in place when the transport error surfaces. -/
theorem send_failure_state_spec (s : HeaterState) (m p : String) (t : ℚ)
    (ht : attr_min_temp ≤ t ∧ t ≤ attr_max_temp) :
    ((set_hvac_mode false m s).state.attr_hvac_mode = s.attr_hvac_mode ∧
     (set_hvac_mode false m s).state.attr_preset_mode = s.attr_preset_mode ∧
     (set_hvac_mode false m s).state.attr_hvac_action =
       s.attr_hvac_action ∧
     (set_hvac_mode false m s).state.target_temp = s.target_temp ∧
     (set_hvac_mode false m s).state.attr_target_temperature =
       s.attr_target_temperature) ∧
    (set_preset_mode false p s).state = s ∧
    ((set_temperature false (some t) s).outcome =
       Outcome.transportError ∧
     (set_temperature false (some t) s).state.target_temp = t ∧
     (set_temperature false (some t) s).state.attr_target_temperature =
       t) := by
  refine ⟨?_, ?_, ?_⟩
  · by_cases hm : m ∈ HVAC_MODES <;>
      exact ⟨by simp [set_hvac_mode, hm], by simp [set_hvac_mode, hm],
        by simp [set_hvac_mode, hm], by simp [set_hvac_mode, hm],
        by simp [set_hvac_mode, hm]⟩
  · simp [set_preset_mode]
  · unfold set_temperature
    dsimp only
    rw [if_neg (not_not.mpr ht)]
    exact ⟨rfl, rfl, rfl⟩

/-- Witness for the amended C6 at concrete arguments from the initial
state. -/
theorem send_failure_state_spec_witness :
    (set_hvac_mode false HVACMode_HEAT
      initStateDefault).state.attr_hvac_mode =
      initStateDefault.attr_hvac_mode ∧
    (set_preset_mode false PRESET_ECO initStateDefault).state =
      initStateDefault ∧
    (set_temperature false (some 22) initStateDefault).state.target_temp
      = 22 :=
  have h := send_failure_state_spec initStateDefault HVACMode_HEAT
    PRESET_ECO 22 (by decide)
  ⟨h.1.1, h.2.1, h.2.2.2.1⟩

/-- C7: with a failing channel, a valid mode command marks the legacy
availability flag false, publishes state once and raises
RointeDeviceError; a preset command raises RointeDeviceError with no
state change at all; an in-range temperature command propagates the
transport error uncaught. -/
theorem command_failure_semantics (s : HeaterState) (m p : String) (t : ℚ)
    (hm : m ∈ HVAC_MODES) (ht : attr_min_temp ≤ t ∧ t ≤ attr_max_temp) :
    ((set_hvac_mode false m s).outcome = Outcome.rointeError ∧
     (set_hvac_mode false m s).state.available = false ∧
     (set_hvac_mode false m s).published = 1) ∧
    ((set_preset_mode false p s).outcome = Outcome.rointeError ∧
     (set_preset_mode false p s).state = s) ∧
    (set_temperature false (some t) s).outcome = Outcome.transportError := by
  refine ⟨?_, ?_, ?_⟩
  · exact ⟨by simp [set_hvac_mode, hm], by simp [set_hvac_mode, hm],
      by simp [set_hvac_mode, hm]⟩
  · exact ⟨by simp [set_preset_mode], by simp [set_preset_mode]⟩
  · unfold set_temperature
    dsimp only
    rw [if_neg (not_not.mpr ht)]
    rfl

/-- Witness for C7 at concrete arguments from the initial state. -/
theorem command_failure_semantics_witness :
    (set_hvac_mode false HVACMode_HEAT initStateDefault).outcome =
      Outcome.rointeError ∧
    (set_preset_mode false PRESET_COMFORT initStateDefault).outcome =
      Outcome.rointeError ∧
    (set_temperature false (some 21) initStateDefault).outcome =
      Outcome.transportError :=
  have h := command_failure_semantics initStateDefault HVACMode_HEAT
    PRESET_COMFORT 21 (by decide) (by decide)
  ⟨h.1.1, h.2.1.1, h.2.2⟩

/-- No single operation writes the `_attr_available` field. -/
lemma applyOp_attr_available (op : Op) (s : HeaterState) :
    (applyOp op s).attr_available = s.attr_available := by
  cases op with
  | update st =>
    obtain ⟨-, -, -, -, -, -, -, p8, -⟩ := upd_passthrough_frame st s
    obtain ⟨-, -, -, -, -, t6, -⟩ := upd_temp_frame st (upd_passthrough st s)
    obtain ⟨-, -, -, -, -, g6, -⟩ :=
      upd_target_frame st (upd_temp st (upd_passthrough st s))
    obtain ⟨-, -, -, -, f5, -⟩ :=
      upd_status_frame st (upd_target st (upd_temp st (upd_passthrough st s)))
    show (handle_update st s).attr_available = s.attr_available
    calc (handle_update st s).attr_available
        = (upd_status st (upd_target st (upd_temp st
            (upd_passthrough st s)))).attr_available := by
          simp [handle_update]
      _ = s.attr_available := by rw [f5, g6, t6, p8]
  | setMode ok m =>
    show (set_hvac_mode ok m s).state.attr_available = s.attr_available
    unfold set_hvac_mode
    dsimp only
    split
    · rfl
    · split
      · split <;> rfl
      · rfl
  | setPreset ok p =>
    show (set_preset_mode ok p s).state.attr_available = s.attr_available
    unfold set_preset_mode
    dsimp only
    split
    · split <;> rfl
    · rfl
  | setTemp ok t =>
    show (set_temperature ok t s).state.attr_available = s.attr_available
    cases t with
    | none => rfl
    | some q =>
      unfold set_temperature
      dsimp only
      split
      · rfl
      · split <;> rfl

/-- C8: `_attr_available` is set true by the constructor and no
subsequent operation writes it, so it is true in every reachable
state. -/
theorem attr_available_constant (ds onl ls : PyVal) (ops : List Op) :
    (run ops (initState ds onl ls)).attr_available = true := by
  have hstep : ∀ (ops2 : List Op) (s : HeaterState),
      (run ops2 s).attr_available = s.attr_available := by
    intro ops2
    induction ops2 with
    | nil => intro s; rfl
    | cons op rest ih =>
      intro s
      calc (run (op :: rest) s).attr_available
          = (applyOp op s).attr_available := ih (applyOp op s)
        _ = s.attr_available := applyOp_attr_available op s
  rw [hstep]
  rfl

/-- Lowering preserves nonemptiness, and the substring test against an
empty haystack fails for a nonempty needle. -/
lemma strContains_empty_hay (k : String) (hk : k ≠ "") :
    strContains (lowerStr k) (lowerStr "") = false := by
  cases k with
  | mk data =>
    cases data with
    | nil => exact absurd rfl hk
    | cons c cs => rfl

/-- The categorization loop is the first-match search of the claim. -/
lemma firstMatch_eq_find (table : List (String × String)) (m : String) :
    firstMatch table m =
      (table.find? fun kc =>
        strContains (lowerStr kc.1) (lowerStr m)).map Prod.snd := by
  induction table with
  | nil => rfl
  | cons kc rest ih =>
    obtain ⟨k, c⟩ := kc
    unfold firstMatch
    rw [List.find?_cons]
    by_cases h : strContains (lowerStr k) (lowerStr m) = true
    · simp [h]
    · simp only [Bool.not_eq_true] at h
      simp [h, ih]

/-- C9: with a table of nonempty model-name substrings and nonempty
category labels, the category assigned at construction is the value of
the first table entry whose key is a case-insensitive substring of the
model string, and "radiator" when no entry matches or the model is
missing. -/
theorem categorize_eq_spec (table : List (String × String))
    (hne : ∀ kc ∈ table, kc.1 ≠ "" ∧ kc.2 ≠ "") (model : Option String) :
    categorize table model = categorySpec table model := by
  cases model with
  | none => rfl
  | some m =>
    by_cases hm : m = ""
    · subst hm
      unfold categorize categorySpec
      dsimp only
      rw [if_neg (by simp)]
      have hnone : table.find?
          (fun kc => strContains (lowerStr kc.1) (lowerStr "")) = none := by
        rw [List.find?_eq_none]
        intro kc hkc
        simp [strContains_empty_hay kc.1 (hne kc hkc).1]
      rw [hnone]
      rfl
    · unfold categorize categorySpec
      dsimp only
      rw [if_pos hm, firstMatch_eq_find]
      cases hfind : table.find?
          (fun kc => strContains (lowerStr kc.1) (lowerStr m)) with
      | none => rfl
      | some kc =>
        have hc2 : kc.2 ≠ "" :=
          (hne kc (List.mem_of_find?_eq_some hfind)).2
        simp [hc2]

/-- Witness for C9: the spec's example model string on a concrete
two-entry table, plus an unmatched model falling back to radiator. -/
theorem categorize_eq_spec_witness :
    categorize [("radiator", "radiator"), ("towel", "towel")]
        (some "Radiator Plus X2") =
      categorySpec [("radiator", "radiator"), ("towel", "towel")]
        (some "Radiator Plus X2") ∧
    categorize [("radiator", "radiator"), ("towel", "towel")]
        (some "Radiator Plus X2") = "radiator" ∧
    categorize [("radiator", "radiator"), ("towel", "towel")]
        (some "Mystery Model") = "radiator" :=
  ⟨categorize_eq_spec [("radiator", "radiator"), ("towel", "towel")]
      (by decide) (some "Radiator Plus X2"),
   by decide, by decide⟩

/-- C10: setup creates exactly one entity per valid record, in source
order, skipping records with falsy ids and records whose constructor
raises, and never aborts: the result is the valid-record sublist mapped
through entity construction, so its length is the number of valid
records. -/
theorem setup_entities_filter (devices : List DeviceRecord) :
    setup_entities devices = (devices.filter validDevice).map mkEntity ∧
    (setup_entities devices).length =
      (devices.filter validDevice).length := by
  have h : ∀ ds : List DeviceRecord,
      setup_entities ds = (ds.filter validDevice).map mkEntity := by
    intro ds
    induction ds with
    | nil => rfl
    | cons dev rest ih =>
      by_cases h1 : pyFalsyStr dev.id = true
      · have hv : validDevice dev = false := by simp [validDevice, h1]
        simp [setup_entities, h1, List.filter_cons, hv, ih]
      · by_cases h2 : dev.ctorRaises = true
        · have hv : validDevice dev = false := by simp [validDevice, h2]
          simp [setup_entities, h1, h2, List.filter_cons, hv, ih]
        · have hv : validDevice dev = true := by
            simp [validDevice, h1, h2]
          simp [setup_entities, h1, h2, List.filter_cons, hv, ih]
  exact ⟨h devices, by rw [h devices, List.length_map]⟩

end Rointe
